import Mathlib

/-!
Verification of the kitty macOS password-manager kitten (src/ssh_manager.py).

The pure core of the program is shallowly embedded here:
* the service-key codec (parse_service_name, encode_service, format_display_name),
* the fzf output interpretation of select_key_with_fzf, modelled as the pure
  function interp over the (stdout, returncode) pair of the subprocess,
* the deletion confirmation decision (confirm_delete),
* the top-level reconciliation flow of main, modelled as mainBody over a World
  of collaborator outcomes, with the three top-level exception handlers in pyMain.

Python strings are modelled as Lean String (a list of characters); Python
string methods used by the code (strip, split, startswith, slicing, in) are
given list-based transcriptions below.
-/

/-- Python str.strip removes these whitespace characters from both ends
(space, tab, newline, carriage return, vertical tab, form feed). -/
def pyIsSpace (c : Char) : Bool :=
  c = ' ' || c = '\t' || c = '\n' || c = '\r' || c = Char.ofNat 11 || c = Char.ofNat 12

/-- Python str.strip on a character list: drop whitespace from both ends. -/
def pyStripList (l : List Char) : List Char :=
  ((l.dropWhile pyIsSpace).reverse.dropWhile pyIsSpace).reverse

/-- Python str.strip. -/
def pyStrip (s : String) : String := String.mk (pyStripList s.data)

/-- Python s.split(sep, 1) on a character list: the part before the first
occurrence of sep, and (when sep occurs) the part after it. -/
def splitOnce (sep : Char) : List Char → List Char × Option (List Char)
  | [] => ([], none)
  | c :: rest =>
    if c = sep then ([], some rest)
    else ((c :: (splitOnce sep rest).1), (splitOnce sep rest).2)

/-- Python s.split(sep) for a one-character separator: always a non-empty
list of (possibly empty) parts. -/
def splitAll (sep : Char) : List Char → List (List Char)
  | [] => [[]]
  | c :: rest =>
    if c = sep then [] :: splitAll sep rest
    else
      match splitAll sep rest with
      | [] => [[c]]
      | l :: ls => (c :: l) :: ls

/-- output.split with a newline separator, as a list of strings
(source line 236: output_lines = output.split). -/
def linesOf (output : String) : List String :=
  (splitAll '\n' output.data).map String.mk

/-- Python s.startswith(pre). -/
def pyStartsWith (s pre : String) : Bool := pre.data.isPrefixOf s.data

/-- Python slicing s[n:] by code points. -/
def pyDrop (s : String) (n : Nat) : String := String.mk (s.data.drop n)

/-- A single-quote character, used in the error message texts of the source. -/
def quoteChar : String := String.mk [Char.ofNat 39]

/-- Transcription of parse_service_name (source lines 113-129): split once on
the first pipe character; if present, split the remainder once on the first
at sign; on success return the triple, otherwise fall back to the whole
original string with empty username and hostname. -/
def parse_service_name (service : String) : String × String × String :=
  match splitOnce '|' service.data with
  | (_, none) => (service, "", "")
  | (friendly_name, some connection) =>
    match splitOnce '@' connection with
    | (_, none) => (service, "", "")
    | (username, some hostname) =>
      (String.mk friendly_name, String.mk username, String.mk hostname)

/-- The service key built by add_ssh_to_keychain (source line 295). -/
def encode_service (friendly_name username hostname : String) : String :=
  friendly_name ++ "|" ++ username ++ "@" ++ hostname

/-- Transcription of format_display_name (source lines 132-145). -/
def format_display_name (service : String) : String :=
  if (parse_service_name service).2.1 ≠ "" ∧ (parse_service_name service).2.2 ≠ "" then
    (parse_service_name service).1 ++ " (" ++ (parse_service_name service).2.1 ++ "@"
      ++ (parse_service_name service).2.2 ++ ")"
  else (parse_service_name service).1

/-- The display-item lookup loops of select_key_with_fzf (source lines
221-223 and 249-253): scan the keys in order and return the first key whose
rendered display name equals the target, if any. -/
def lookupByDisplay : List String → String → Option String
  | [], _ => none
  | key :: rest, target =>
    if format_display_name key = target then some key else lookupByDisplay rest target

/-- The selected display string of the exit-status-0 branch (source lines
244-246): the last line of the split output (empty when there are no lines),
falling back to the second-to-last line when the last is empty and more than
one line exists. -/
def selectedDisplay (output : String) : String :=
  if (linesOf output).getLast?.getD "" = "" ∧ (linesOf output).length > 1 then
    (linesOf output).dropLast.getLast?.getD ""
  else (linesOf output).getLast?.getD ""

/-- Simply the last split line of the output: the simplified selection rule
that the exit-status-0 branch is claimed to be extensionally equal to. -/
def lastLineSimple (output : String) : String :=
  (linesOf output).getLast?.getD ""

/-- The last non-empty line among the split lines of the output, empty when
no line is non-empty; the phrasing used by the specification for the
exit-status-0 selection. -/
def lastNonEmptyLine (output : String) : String :=
  (((linesOf output).filter (fun l => l ≠ "")).getLast?).getD ""

/-- The first split line of the output (source line 258). -/
def firstLineOf (output : String) : String :=
  ((linesOf output).get? 0).getD ""

/-- The new-name computation of the exit-status-1 branch (source lines
258-264): take the first line; if it contains an opening parenthesis, a
closing parenthesis and an at sign, keep only the part before the first
opening parenthesis, stripped of surrounding whitespace. -/
def createdName (output : String) : String :=
  if (firstLineOf output).data.contains '(' && (firstLineOf output).data.contains ')'
      && (firstLineOf output).data.contains '@' then
    pyStrip (String.mk (splitOnce '(' (firstLineOf output).data).1)
  else firstLineOf output

/-- The pure interpretation of the fzf subprocess result performed by
select_key_with_fzf (source lines 216-266): strip the stdout text; a
DELETE-prefixed output yields a delete intent (resolving the display name to
a raw key when possible); otherwise exit status 130 is a cancel, exit status
0 resolves the selected display string to a raw key (cancel when unmatched),
exit status 1 creates a new name from the first line, and any other exit
status is a cancel. -/
def interp (existing_keys : List String) (stdout : String) (returncode : Int) :
    String × Bool :=
  if pyStartsWith (pyStrip stdout) "DELETE:" then
    match lookupByDisplay existing_keys (pyDrop (pyStrip stdout) 7) with
    | some key => (key, true)
    | none => (pyDrop (pyStrip stdout) 7, true)
  else if returncode = 130 then ("", false)
  else if returncode = 0 then
    match lookupByDisplay existing_keys (selectedDisplay (pyStrip stdout)) with
    | some key => (key, false)
    | none => ("", false)
  else if returncode = 1 then (createdName (pyStrip stdout), false)
  else ("", false)

/-- The spec-simplified exit-status-0 interpretation: identical to interp at
exit status 0 except that the selected display string is simply the last
split line of the stripped output, with no second-to-last fallback. -/
def interpAlt0 (existing_keys : List String) (stdout : String) : String × Bool :=
  if pyStartsWith (pyStrip stdout) "DELETE:" then
    match lookupByDisplay existing_keys (pyDrop (pyStrip stdout) 7) with
    | some key => (key, true)
    | none => (pyDrop (pyStrip stdout) 7, true)
  else
    match lookupByDisplay existing_keys (lastLineSimple (pyStrip stdout)) with
    | some key => (key, false)
    | none => ("", false)

/-- Python str.lower, modelled characterwise over the code points. -/
def pyLower (s : String) : String := String.mk (s.data.map Char.toLower)

/-- Transcription of the decision of confirm_delete (source lines 388-394),
applied to the raw response returned by kitty_input: lowercase it; confirm
unless the lowered response is a member of the two-element refusal list. -/
def confirm_delete (response : String) : Bool :=
  if pyLower response = "" ∨ pyLower response ∉ (["no", "n"] : List String) then true
  else false

/-- The error taxonomy of the flow: KittenError, KeyboardInterrupt, and any
other exception. -/
inductive PyErr where
  | kitten (msg : String)
  | keyboardInterrupt
  | other (msg : String)
deriving DecidableEq

/-- Observable collaborator actions performed by the flow, recorded as a
trace by mainBody. -/
inductive FlowAction where
  | confirmPrompt
  | deleteEntry (key : String)
  | getSecret (key : String)
  | clipboard (text : String)
  | addEntry (key : String) (password : String)
  | pause
deriving DecidableEq

/-- The outcomes of the external collaborators during one run of main: each
fallible subprocess call either returns a value or raises. The interactive
reads inside the try block are modelled as returned strings: an exception
one of them raises there lands in the same top-level handlers as any other
body error, a path the fallible store and subprocess fields already
exercise. The two acknowledgment pauses inside the KittenError and generic
exception handlers (source lines 478 and 486) are fallible, because
kitty_input does not catch a keyboard interrupt (its internal handler at
source line 38 catches Exception only, and its fallback input call can
itself raise) and an exception raised inside an except block is not handled
by the sibling handlers of the same try. -/
structure World where
  keysResult : Except PyErr (List String)
  fzfRun : Except PyErr (String × Int)
  confirmInput : String
  usernameInput : String
  hostnameInput : String
  passwordInput : String
  passwordConfirmInput : String
  deleteResult : Except PyErr Unit
  getPasswordResult : Except PyErr String
  clipboardResult : Except PyErr Unit
  addResult : Except PyErr Unit
  ackPauseKitten : Except PyErr Unit
  ackPauseOther : Except PyErr Unit

/-- select_key_with_fzf (source lines 184-279): on a successful subprocess
run it returns the pure interpretation of the (stdout, exit status) pair; a
raised exception is wrapped into a KittenError (source lines 267-279), while
a keyboard interrupt passes through untouched. -/
def select_key_with_fzf (existing_keys : List String)
    (run : Except PyErr (String × Int)) : Except PyErr (String × Bool) :=
  match run with
  | Except.error PyErr.keyboardInterrupt => Except.error PyErr.keyboardInterrupt
  | Except.error (PyErr.kitten m) =>
    Except.error (PyErr.kitten ("Error during fzf selection: " ++ m))
  | Except.error (PyErr.other m) =>
    Except.error (PyErr.kitten ("Error during fzf selection: " ++ m))
  | Except.ok (stdout, rc) => Except.ok (interp existing_keys stdout rc)

/-- The command string returned for an existing connection (source lines
444-446). -/
def sshCommand (username hostname : String) : String :=
  "kitty +kitten ssh -o UserKnownHostsFile=/dev/null -o StrictHostKeyChecking=no "
    ++ username ++ "@" ++ hostname

/-- The body of main inside its try block (source lines 404-473), returning
the result or the raised error, together with the trace of collaborator
actions performed. -/
def mainBody (w : World) : Except PyErr String × List FlowAction :=
  match w.keysResult with
  | Except.error e => (Except.error e, [])
  | Except.ok existing_keys =>
    match select_key_with_fzf existing_keys w.fzfRun with
    | Except.error e => (Except.error e, [])
    | Except.ok (selected_key, is_delete) =>
      if selected_key = "" then (Except.ok "", [])
      else if is_delete then
        if selected_key ∈ existing_keys then
          if confirm_delete w.confirmInput then
            match w.deleteResult with
            | Except.error e =>
              (Except.error e, [FlowAction.confirmPrompt, FlowAction.deleteEntry selected_key])
            | Except.ok _ =>
              (Except.ok "",
               [FlowAction.confirmPrompt, FlowAction.deleteEntry selected_key, FlowAction.pause])
          else (Except.ok "", [FlowAction.confirmPrompt, FlowAction.pause])
        else
          (Except.error (PyErr.kitten
            ("Cannot delete: " ++ quoteChar ++ selected_key ++ quoteChar ++ " does not exist")), [])
      else if selected_key ∈ existing_keys then
        if (parse_service_name selected_key).2.1 = ""
            ∨ (parse_service_name selected_key).2.2 = "" then
          (Except.error (PyErr.kitten
            ("Invalid SSH connection format for " ++ quoteChar ++ selected_key ++ quoteChar)), [])
        else
          match w.getPasswordResult with
          | Except.error e => (Except.error e, [FlowAction.getSecret selected_key])
          | Except.ok password =>
            match w.clipboardResult with
            | Except.error e =>
              (Except.error e, [FlowAction.getSecret selected_key, FlowAction.clipboard password])
            | Except.ok _ =>
              (Except.ok (sshCommand (parse_service_name selected_key).2.1
                 (parse_service_name selected_key).2.2),
               [FlowAction.getSecret selected_key, FlowAction.clipboard password])
      else
        if pyStrip w.usernameInput = "" then
          (Except.error (PyErr.kitten "Username cannot be empty"), [])
        else if pyStrip w.hostnameInput = "" then
          (Except.error (PyErr.kitten "Hostname cannot be empty"), [])
        else if w.passwordInput = "" then
          (Except.error (PyErr.kitten "Password cannot be empty"), [])
        else if w.passwordInput ≠ w.passwordConfirmInput then
          (Except.error (PyErr.kitten "Passwords do not match"), [])
        else
          match w.addResult with
          | Except.error e =>
            (Except.error e,
             [FlowAction.addEntry
               (encode_service selected_key (pyStrip w.usernameInput)
                 (pyStrip w.hostnameInput)) w.passwordInput])
          | Except.ok _ =>
            (Except.ok "",
             [FlowAction.addEntry
               (encode_service selected_key (pyStrip w.usernameInput)
                 (pyStrip w.hostnameInput)) w.passwordInput,
              FlowAction.pause])

/-- main with its three top-level exception handlers (source lines 475-487):
a caught KittenError or generic exception is reported and then acknowledged
through a kitty_input pause (source lines 478 and 486) before the
empty-string result is returned; that pause can itself raise, in which case
the exception propagates out of main, since an exception raised inside an
except block is not handled by the sibling handlers. The keyboard-interrupt
handler (source lines 480-482) is silent and total. -/
def pyMain (w : World) : Except PyErr String :=
  match (mainBody w).1 with
  | Except.ok s => Except.ok s
  | Except.error (PyErr.kitten _) =>
    match w.ackPauseKitten with
    | Except.error e => Except.error e
    | Except.ok _ => Except.ok ""
  | Except.error PyErr.keyboardInterrupt => Except.ok ""
  | Except.error (PyErr.other _) =>
    match w.ackPauseOther with
    | Except.error e => Except.error e
    | Except.ok _ => Except.ok ""

/-! ### Helper lemmas about the string primitives -/

theorem splitOnce_snd_none_iff (sep : Char) (l : List Char) :
    (splitOnce sep l).2 = none ↔ sep ∉ l := by
  induction l with
  | nil => simp [splitOnce]
  | cons c rest ih =>
    by_cases hc : c = sep
    · subst hc
      simp [splitOnce]
    · have hcs : ¬ (sep = c) := fun h => hc h.symm
      simp [splitOnce, hc, ih, List.mem_cons, hcs]

theorem splitOnce_append (sep : Char) (a b : List Char) (h : sep ∉ a) :
    splitOnce sep (a ++ sep :: b) = (a, some b) := by
  induction a with
  | nil => simp [splitOnce]
  | cons c a ih =>
    have hc : ¬ (c = sep) := fun hh => h (hh ▸ List.mem_cons_self c a)
    have ha : sep ∉ a := fun hm => h (List.mem_cons_of_mem c hm)
    simp [splitOnce, hc, ih ha]

theorem splitAll_ne_nil (sep : Char) (l : List Char) : splitAll sep l ≠ [] := by
  induction l with
  | nil => simp [splitAll]
  | cons c rest ih =>
    by_cases hc : c = sep
    · simp [splitAll, hc]
    · simp only [splitAll, if_neg hc]
      cases hsa : splitAll sep rest with
      | nil => simp
      | cons x xs => simp

theorem head_dropWhile_false {α : Type} (p : α → Bool) (l : List α) (c : α)
    (h : (l.dropWhile p).head? = some c) : p c = false := by
  induction l with
  | nil => simp [List.dropWhile] at h
  | cons a rest ih =>
    by_cases hp : p a = true
    · rw [List.dropWhile_cons_of_pos hp] at h
      exact ih h
    · simp only [Bool.not_eq_true] at hp
      rw [List.dropWhile_cons_of_neg (by simp [hp])] at h
      simp only [List.head?_cons, Option.some.injEq] at h
      exact h ▸ hp

theorem pyStripList_getLast (l : List Char) (c : Char)
    (h : (pyStripList l).getLast? = some c) : pyIsSpace c = false := by
  unfold pyStripList at h
  rw [List.getLast?_reverse] at h
  exact head_dropWhile_false _ _ _ h

theorem splitAll_cons_pos (sep c : Char) (rest : List Char) (h : c = sep) :
    splitAll sep (c :: rest) = [] :: splitAll sep rest := by
  simp [splitAll, h]

theorem splitAll_cons_neg (sep c : Char) (rest : List Char) (h : ¬ c = sep) :
    splitAll sep (c :: rest) =
      match splitAll sep rest with
      | [] => [[c]]
      | l :: ls => (c :: l) :: ls := by
  simp [splitAll, h]

theorem splitAll_getLast_nonempty (sep : Char) (l : List Char) :
    l ≠ [] → l.getLast? ≠ some sep →
      ∃ t, (splitAll sep l).getLast? = some t ∧ t ≠ [] := by
  induction l with
  | nil => intro h; exact absurd rfl h
  | cons c rest ih =>
    intro _ hlast
    cases rest with
    | nil =>
      have hc : ¬ (c = sep) := fun hh => hlast (by simp [hh])
      refine ⟨[c], ?_, by simp⟩
      simp [splitAll, hc]
    | cons d rest2 =>
      have hlast2 : (d :: rest2).getLast? ≠ some sep := by
        rwa [List.getLast?_cons_cons] at hlast
      obtain ⟨t, ht, htne⟩ := ih (by simp) hlast2
      by_cases hc : c = sep
      · refine ⟨t, ?_, htne⟩
        rw [splitAll_cons_pos sep c _ hc]
        cases hsa : splitAll sep (d :: rest2) with
        | nil => exact absurd hsa (splitAll_ne_nil sep _)
        | cons x xs =>
          rw [hsa] at ht
          rw [List.getLast?_cons_cons]
          exact ht
      · rw [splitAll_cons_neg sep c _ hc]
        cases hsa : splitAll sep (d :: rest2) with
        | nil => exact absurd hsa (splitAll_ne_nil sep _)
        | cons x xs =>
          rw [hsa] at ht
          cases xs with
          | nil =>
            refine ⟨c :: x, ?_, by simp⟩
            show ([c :: x] : List (List Char)).getLast? = some (c :: x)
            simp
          | cons y ys =>
            refine ⟨t, ?_, htne⟩
            show ((c :: x) :: y :: ys).getLast? = some t
            rw [List.getLast?_cons_cons]
            rw [List.getLast?_cons_cons] at ht
            exact ht

theorem mk_ne_empty (t : List Char) (h : t ≠ []) : String.mk t ≠ "" :=
  fun he => h (String.ext_iff.mp he)

theorem lines_strip_getLast (stdout : String) (h : (pyStrip stdout).data ≠ []) :
    ∃ t, (linesOf (pyStrip stdout)).getLast? = some (String.mk t) ∧ t ≠ [] := by
  obtain ⟨c, hc⟩ : ∃ c, (pyStrip stdout).data.getLast? = some c := by
    cases hl : (pyStrip stdout).data.getLast? with
    | none => exact absurd (List.getLast?_eq_none_iff.mp hl) h
    | some c => exact ⟨c, rfl⟩
  have hcs : pyIsSpace c = false := pyStripList_getLast _ _ hc
  have hnl : (pyStrip stdout).data.getLast? ≠ some '\n' := by
    rw [hc]
    intro hh
    injection hh with hh2
    rw [hh2] at hcs
    simp [pyIsSpace] at hcs
  obtain ⟨t, ht, htne⟩ := splitAll_getLast_nonempty '\n' _ h hnl
  refine ⟨t, ?_, htne⟩
  rw [linesOf, List.getLast?_map, ht]
  rfl

theorem selectedDisplay_strip (stdout : String) :
    selectedDisplay (pyStrip stdout) = lastLineSimple (pyStrip stdout) := by
  by_cases h : (pyStrip stdout).data = []
  · unfold selectedDisplay lastLineSimple linesOf
    rw [h]
    rw [if_neg (fun hcon => absurd hcon.2 (by decide))]
  · obtain ⟨t, ht, htne⟩ := lines_strip_getLast stdout h
    unfold selectedDisplay lastLineSimple
    rw [if_neg]
    intro hcon
    rw [ht] at hcon
    exact mk_ne_empty t htne (by simpa using hcon.1)

theorem lastLineSimple_strip_ne (stdout : String) (h : pyStrip stdout ≠ "") :
    lastLineSimple (pyStrip stdout) ≠ "" := by
  have hd : (pyStrip stdout).data ≠ [] := fun hh => h (String.ext hh)
  obtain ⟨t, ht, htne⟩ := lines_strip_getLast stdout hd
  unfold lastLineSimple
  rw [ht]
  simpa using mk_ne_empty t htne

theorem filter_getLast {α : Type} (p : α → Bool) (L : List α) (x : α)
    (h : L.getLast? = some x) (hp : p x = true) :
    (L.filter p).getLast? = some x := by
  obtain ⟨L1, rfl⟩ := List.getLast?_eq_some_iff.mp h
  rw [List.filter_append]
  have hx : List.filter p [x] = [x] := by simp [hp]
  rw [hx, List.getLast?_concat]

theorem lastNonEmpty_strip (stdout : String) :
    lastNonEmptyLine (pyStrip stdout) = lastLineSimple (pyStrip stdout) := by
  by_cases h : (pyStrip stdout).data = []
  · unfold lastNonEmptyLine lastLineSimple linesOf
    rw [h]
    rfl
  · obtain ⟨t, ht, htne⟩ := lines_strip_getLast stdout h
    unfold lastNonEmptyLine lastLineSimple
    rw [filter_getLast _ _ _ ht (by simpa using mk_ne_empty t htne), ht]

/-! ### Claim theorems -/

/-- C1 counterexample: at exit status 130 with stdout text DELETE:x (a
DELETE-prefixed output), the selector interpretation yields a delete intent
carrying x, not the cancel intent, because the DELETE prefix check precedes
the exit-status check. -/
theorem claimC1_counterexample :
    interp [] "DELETE:x" 130 = ("x", true) ∧ interp [] "DELETE:x" 130 ≠ ("", false) := by
  constructor
  · rfl
  · decide

/-- C1 amended: for every list of keys and every stdout text whose stripped
form does not start with DELETE:, exit status 130 yields the cancel intent
(empty selection, delete flag false), regardless of the remaining output
contents. -/
theorem claimC1_amended (existing_keys : List String) (stdout : String)
    (h : ¬ pyStartsWith (pyStrip stdout) "DELETE:" = true) :
    interp existing_keys stdout 130 = ("", false) := by
  unfold interp
  rw [if_neg h, if_pos rfl]

/-- Witness for C1 amended at a concrete input. -/
theorem claimC1_witness :
    interp ["work|alice@host1"] "anything" 130 = ("", false) :=
  claimC1_amended ["work|alice@host1"] "anything" (by decide)

/-- C2: a key containing no pipe character, or whose part after the first
pipe contains no at sign, decodes to the whole original key with empty
username and hostname; parse_service_name is total, so it never raises. -/
theorem claimC2_parse_fallback (key : String)
    (h : ('|' ∉ key.data) ∨ ('@' ∉ ((splitOnce '|' key.data).2.getD []))) :
    parse_service_name key = (key, "", "") := by
  cases hs : splitOnce '|' key.data with
  | mk pre conn? =>
    cases conn? with
    | none => simp [parse_service_name, hs]
    | some conn =>
      have hat : '@' ∉ conn := by
        cases h with
        | inl hp =>
          exfalso
          have hn : (splitOnce '|' key.data).2 = none :=
            (splitOnce_snd_none_iff '|' key.data).mpr hp
          rw [hs] at hn
          simp at hn
        | inr hq =>
          rw [hs] at hq
          simpa using hq
      have h2 : (splitOnce '@' conn).2 = none :=
        (splitOnce_snd_none_iff '@' conn).mpr hat
      cases ht : splitOnce '@' conn with
      | mk u host? =>
        cases host? with
        | none => simp [parse_service_name, hs, ht]
        | some hst =>
          rw [ht] at h2
          simp at h2

/-- Witness for C2 at the concrete key of the specification example. -/
theorem claimC2_witness :
    parse_service_name "name|no-at-sign" = ("name|no-at-sign", "", "") :=
  claimC2_parse_fallback "name|no-at-sign" (Or.inr (by decide))

/-- C3: for all strings with no pipe in the friendly name and no at sign in
the username, decoding the key built by add_ssh_to_keychain recovers the
original triple. -/
theorem claimC3_roundtrip (name user host : String)
    (h1 : '|' ∉ name.data) (h2 : '@' ∉ user.data) :
    parse_service_name (encode_service name user host) = (name, user, host) := by
  have hdata : (encode_service name user host).data
      = name.data ++ '|' :: (user.data ++ '@' :: host.data) := by
    simp [encode_service, String.data_append]
  unfold parse_service_name
  rw [hdata, splitOnce_append '|' _ _ h1]
  show (match splitOnce '@' (user.data ++ '@' :: host.data) with
    | (_, none) => (encode_service name user host, "", "")
    | (username, some hostname) =>
      (String.mk name.data, String.mk username, String.mk hostname)) = (name, user, host)
  rw [splitOnce_append '@' _ _ h2]

/-- Witness for C3 at a concrete profile. -/
theorem claimC3_witness :
    parse_service_name (encode_service "work" "alice" "host1") = ("work", "alice", "host1") :=
  claimC3_roundtrip "work" "alice" "host1" (by decide) (by decide)

/-- C7: the empty confirmation response confirms the deletion, and the
deletion is cancelled exactly when the lowercased response is the word no or
the letter n; every other non-empty response confirms. -/
theorem claimC7_confirm (response : String) :
    confirm_delete "" = true ∧
    (confirm_delete response = false ↔
      (pyLower response = "no" ∨ pyLower response = "n")) := by
  refine ⟨by decide, ?_, ?_⟩
  · intro hf
    by_cases h : pyLower response ∈ (["no", "n"] : List String)
    · simpa using h
    · exfalso
      unfold confirm_delete at hf
      rw [if_pos (Or.inr h)] at hf
      simp at hf
  · intro h
    have hmem : pyLower response ∈ (["no", "n"] : List String) := by
      rcases h with h | h <;> rw [h] <;> simp
    have hne : pyLower response ≠ "" := by
      rcases h with h | h <;> rw [h] <;> decide
    unfold confirm_delete
    rw [if_neg (fun hc => hc.elim hne (fun hn => hn hmem))]

/-- Witness for C7 at concrete responses: empty confirms, No cancels. -/
theorem claimC7_witness :
    confirm_delete "" = true ∧ confirm_delete "No" = false :=
  ⟨(claimC7_confirm "No").1, (claimC7_confirm "No").2.mpr (Or.inl (by decide))⟩

/-- C4: at exit status 0 with an output that is not DELETE-prefixed, if the
last non-empty line of the stripped output equals the rendered display name
of some existing key (first such key found by the scan), the intent is a
connect carrying that raw key; if it matches no rendered display name, the
intent is the cancel pair, with no exception. -/
theorem claimC4_connect (existing_keys : List String) (stdout : String)
    (h : ¬ pyStartsWith (pyStrip stdout) "DELETE:" = true) :
    (∀ key, lookupByDisplay existing_keys (lastNonEmptyLine (pyStrip stdout)) = some key →
        interp existing_keys stdout 0 = (key, false)) ∧
    (lookupByDisplay existing_keys (lastNonEmptyLine (pyStrip stdout)) = none →
        interp existing_keys stdout 0 = ("", false)) := by
  have hsel : selectedDisplay (pyStrip stdout) = lastNonEmptyLine (pyStrip stdout) := by
    rw [selectedDisplay_strip, lastNonEmpty_strip]
  constructor
  · intro key hk
    unfold interp
    rw [if_neg h, if_neg (by decide : ¬ ((0 : Int) = 130)), if_pos rfl, hsel, hk]
  · intro hk
    unfold interp
    rw [if_neg h, if_neg (by decide : ¬ ((0 : Int) = 130)), if_pos rfl, hsel, hk]

/-- Witness for C4: a matched display string connects with the raw key, and
an unmatched one cancels. -/
theorem claimC4_witness :
    interp ["work|alice@host1"] "ali\nwork (alice@host1)" 0 = ("work|alice@host1", false) ∧
    interp ["work|alice@host1"] "ali\nnothing like it" 0 = ("", false) :=
  ⟨(claimC4_connect ["work|alice@host1"] "ali\nwork (alice@host1)" (by decide)).1
      "work|alice@host1" (by decide),
   (claimC4_connect ["work|alice@host1"] "ali\nnothing like it" (by decide)).2 (by decide)⟩

/-- C5: at exit status 1 with an output that is not DELETE-prefixed, the
intent is a create carrying the first line of the stripped output, and when
that first line contains an opening parenthesis, a closing parenthesis and
an at sign, everything from the first opening parenthesis onward is removed
and the remainder stripped of whitespace. -/
theorem claimC5_create (existing_keys : List String) (stdout : String)
    (h : ¬ pyStartsWith (pyStrip stdout) "DELETE:" = true) :
    interp existing_keys stdout 1 = (createdName (pyStrip stdout), false) ∧
    ((firstLineOf (pyStrip stdout)).data.contains '(' = true →
     (firstLineOf (pyStrip stdout)).data.contains ')' = true →
     (firstLineOf (pyStrip stdout)).data.contains '@' = true →
     interp existing_keys stdout 1
       = (pyStrip (String.mk (splitOnce '(' (firstLineOf (pyStrip stdout)).data).1),
          false)) := by
  have hmain : interp existing_keys stdout 1 = (createdName (pyStrip stdout), false) := by
    unfold interp
    rw [if_neg h, if_neg (by decide : ¬ ((1 : Int) = 130)),
      if_neg (by decide : ¬ ((1 : Int) = 0)), if_pos rfl]
  refine ⟨hmain, fun h1 h2 h3 => ?_⟩
  rw [hmain]
  unfold createdName
  rw [if_pos (by rw [h1, h2, h3]; rfl)]

/-- Witness for C5: the specification example, a typed query that looks like
a rendered display string. -/
theorem claimC5_witness :
    interp [] "weird (x@y)" 1 = ("weird", false) := by
  have h := (claimC5_create [] "weird (x@y)" (by decide)).1
  rw [h]
  rfl

/-- C10: since the stdout text is whitespace-stripped before being split
into lines, the last split line is non-empty whenever the stripped output is
non-empty; the second-to-last fallback of the exit-status-0 branch therefore
never changes the selected display string, and on non-DELETE outputs the
interpretation at exit status 0 equals the simplified one that just takes
the last split line of the stripped output. -/
theorem claimC10_refinement (existing_keys : List String) (stdout : String) :
    (pyStrip stdout ≠ "" → lastLineSimple (pyStrip stdout) ≠ "") ∧
    selectedDisplay (pyStrip stdout) = lastLineSimple (pyStrip stdout) ∧
    (¬ pyStartsWith (pyStrip stdout) "DELETE:" = true →
      interp existing_keys stdout 0 = interpAlt0 existing_keys stdout) := by
  refine ⟨lastLineSimple_strip_ne stdout, selectedDisplay_strip stdout, fun h => ?_⟩
  have hL : interp existing_keys stdout 0
      = match lookupByDisplay existing_keys (selectedDisplay (pyStrip stdout)) with
        | some key => (key, false)
        | none => ("", false) := by
    unfold interp
    rw [if_neg h, if_neg (by decide : ¬ ((0 : Int) = 130)), if_pos rfl]
  have hR : interpAlt0 existing_keys stdout
      = match lookupByDisplay existing_keys (lastLineSimple (pyStrip stdout)) with
        | some key => (key, false)
        | none => ("", false) := by
    unfold interpAlt0
    rw [if_neg h]
  rw [hL, hR, selectedDisplay_strip]

/-- Witness for C10 at a concrete two-line output. -/
theorem claimC10_witness :
    lastLineSimple (pyStrip "ali\nwork (alice@host1)") ≠ "" ∧
    interp ["work|alice@host1"] "ali\nwork (alice@host1)" 0
      = interpAlt0 ["work|alice@host1"] "ali\nwork (alice@host1)" :=
  ⟨(claimC10_refinement ["work|alice@host1"] "ali\nwork (alice@host1)").1 (by decide),
   (claimC10_refinement ["work|alice@host1"] "ali\nwork (alice@host1)").2.2 (by decide)⟩

/-- C6 counterexample: a delete intent whose carried string is empty (the
selector returns it for the output DELETE: with no matching display item)
does not reach the unknown-entry error even though the empty string is not
among the listed keys: main returns the empty result at its empty-selection
check first, performing no action at all. -/
theorem claimC6_counterexample :
    select_key_with_fzf ["a|b@c"] (Except.ok ("DELETE:", 0)) = Except.ok ("", true) ∧
    ("" ∉ (["a|b@c"] : List String)) ∧
    mainBody { keysResult := Except.ok ["a|b@c"], fzfRun := Except.ok ("DELETE:", 0),
               confirmInput := "", usernameInput := "", hostnameInput := "",
               passwordInput := "", passwordConfirmInput := "",
               deleteResult := Except.ok (), getPasswordResult := Except.ok "",
               clipboardResult := Except.ok (), addResult := Except.ok (),
               ackPauseKitten := Except.ok (), ackPauseOther := Except.ok () }
      = (Except.ok "", []) :=
  ⟨rfl, by decide, rfl⟩

/-- C6 amended: for every delete intent produced by the selector whose
carried key-or-name string is non-empty and not a member of the originally
listed keys, the flow fails with the unknown-entry error and performs no
store action. -/
theorem claimC6_amended (w : World) (keys : List String) (key : String)
    (h1 : w.keysResult = Except.ok keys)
    (h2 : select_key_with_fzf keys w.fzfRun = Except.ok (key, true))
    (hne : key ≠ "")
    (hmem : key ∉ keys) :
    mainBody w = (Except.error (PyErr.kitten
      ("Cannot delete: " ++ quoteChar ++ key ++ quoteChar ++ " does not exist")), []) := by
  simp only [mainBody, h1, h2]
  rw [if_neg hne, if_true, if_neg hmem]

/-- Witness for C6 amended: deleting an entry typed as DELETE:zzz that
matches nothing yields the unknown-entry error with an empty trace. -/
theorem claimC6_witness :
    mainBody { keysResult := Except.ok ["a|b@c"], fzfRun := Except.ok ("DELETE:zzz", 0),
               confirmInput := "", usernameInput := "", hostnameInput := "",
               passwordInput := "", passwordConfirmInput := "",
               deleteResult := Except.ok (), getPasswordResult := Except.ok "",
               clipboardResult := Except.ok (), addResult := Except.ok (),
               ackPauseKitten := Except.ok (), ackPauseOther := Except.ok () }
      = (Except.error (PyErr.kitten
          ("Cannot delete: " ++ quoteChar ++ "zzz" ++ quoteChar ++ " does not exist")), []) :=
  claimC6_amended _ ["a|b@c"] "zzz" rfl rfl (by decide) (by decide)

/-- C8 counterexample: main does not return a string on every run. When the
key listing raises a KittenError, the handler at source line 475 reports it
and pauses for acknowledgment at line 478; a keyboard interrupt raised by
that pause is not caught by kitty_input nor by the sibling handlers of the
same try, so it propagates out of main. -/
theorem claimC8_counterexample :
    pyMain { keysResult := Except.error
               (PyErr.kitten "Error retrieving keychain keys: boom"),
             fzfRun := Except.ok ("", 0),
             confirmInput := "", usernameInput := "", hostnameInput := "",
             passwordInput := "", passwordConfirmInput := "",
             deleteResult := Except.ok (), getPasswordResult := Except.ok "",
             clipboardResult := Except.ok (), addResult := Except.ok (),
             ackPauseKitten := Except.error PyErr.keyboardInterrupt,
             ackPauseOther := Except.ok () }
      = Except.error PyErr.keyboardInterrupt := rfl

/-- C8 amended: in every run whose acknowledgment pauses inside the error
handlers return normally, any error raised inside the try body of main, of
any of the three kinds of the taxonomy (KittenError, a user interrupt, or
any other exception), is caught at the top level and converted into the
empty-string result, and main returns a string. -/
theorem claimC8_amended (w : World)
    (hk : w.ackPauseKitten = Except.ok ())
    (ho : w.ackPauseOther = Except.ok ()) :
    (∃ s, pyMain w = Except.ok s) ∧
    (∀ e, (mainBody w).1 = Except.error e → pyMain w = Except.ok "") := by
  constructor
  · cases hm : (mainBody w).1 with
    | ok s => exact ⟨s, by simp only [pyMain, hm]⟩
    | error e =>
      cases e with
      | kitten m => exact ⟨"", by simp only [pyMain, hm, hk]⟩
      | keyboardInterrupt => exact ⟨"", by simp only [pyMain, hm]⟩
      | other m => exact ⟨"", by simp only [pyMain, hm, ho]⟩
  · intro e he
    cases e with
    | kitten m => simp only [pyMain, he, hk]
    | keyboardInterrupt => simp only [pyMain, he]
    | other m => simp only [pyMain, he, ho]

/-- Witness for C8 amended: with normally returning acknowledgment pauses, a
failing key listing is converted to the empty-string result. -/
theorem claimC8_witness :
    pyMain { keysResult := Except.error (PyErr.other "boom"),
             fzfRun := Except.ok ("", 0),
             confirmInput := "", usernameInput := "", hostnameInput := "",
             passwordInput := "", passwordConfirmInput := "",
             deleteResult := Except.ok (), getPasswordResult := Except.ok "",
             clipboardResult := Except.ok (), addResult := Except.ok (),
             ackPauseKitten := Except.ok (), ackPauseOther := Except.ok () }
      = Except.ok "" :=
  (claimC8_amended _ rfl rfl).2 (PyErr.other "boom") rfl

/-- C9: whenever the selector interpretation yields an empty selection
string, main returns the empty string immediately regardless of the delete
flag, performing no confirmation prompt, no deletion and raising no error. -/
theorem claimC9_silent_cancel (w : World) (keys : List String) (stdout : String)
    (rc : Int) (b : Bool)
    (h1 : w.keysResult = Except.ok keys)
    (h2 : w.fzfRun = Except.ok (stdout, rc))
    (h3 : interp keys stdout rc = ("", b)) :
    mainBody w = (Except.ok "", []) := by
  have hsel : select_key_with_fzf keys w.fzfRun = Except.ok ("", b) := by
    rw [h2]
    show Except.ok (interp keys stdout rc) = Except.ok ("", b)
    rw [h3]
  simp only [mainBody, h1, hsel]
  rw [if_true]

/-- Witness for C9: the DELETE-prefixed output with an empty remainder that
matches no display item is a silent cancel. -/
theorem claimC9_witness :
    mainBody { keysResult := Except.ok ["a|b@c"], fzfRun := Except.ok ("DELETE:", 0),
               confirmInput := "yes", usernameInput := "", hostnameInput := "",
               passwordInput := "", passwordConfirmInput := "",
               deleteResult := Except.ok (), getPasswordResult := Except.ok "",
               clipboardResult := Except.ok (), addResult := Except.ok (),
               ackPauseKitten := Except.ok (), ackPauseOther := Except.ok () }
      = (Except.ok "", []) :=
  claimC9_silent_cancel _ ["a|b@c"] "DELETE:" 0 true rfl rfl (by decide)
